import Mathlib

/-!
# cli-interactive: conversation agent, search tool, interactive shell, startup

A shallow embedding of the three Go sources

* `cmd/cli-interactive/main.go`       (package `main`)
* `cmd/cli-interactive/src/agent.go`  (package `agent`)
* `cmd/cli-interactive/src/search.go` (package `agent`)

The external services (model backend, search backend, terminal) are
inputs of the model: a generation call is a function from the request to
`(response, error)`, indexed by the number of generation calls made so
far, so that a backend may answer the same request differently on
different calls; a search client is a function from the search request to
`(answer, error)`; the terminal is the list of results of `Readline`.
A Go `error` is represented by its message, and `fmt.Errorf("p: %w", err)`
by the message `"p: " ++ err`.
-/

set_option linter.dupNamespace false

/-- Input schema of the search tool, declared identically in package
`main` and in package `agent`. -/
structure SearchInput where
  Query : String
  deriving DecidableEq, Repr

/-! ## Library types used by the sources -/

namespace ai

/-- Message roles of the genkit `ai` package. -/
inductive Role where
  | RoleSystem
  | RoleUser
  | RoleModel
  | RoleTool
  deriving DecidableEq, Repr

/-- A message part; the sources only build text parts. -/
structure Part where
  Text : String
  deriving DecidableEq, Repr

/-- Text part constructor, `ai.NewTextPart`. -/
def NewTextPart (text : String) : Part := ⟨text⟩

/-- A chat message, `ai.Message`. -/
structure Message where
  Role : Role
  Content : List Part
  deriving DecidableEq, Repr

/-- A tool definition as built by `genkit.DefineTool`: symbolic name,
description and the function run when the backend invokes the tool. -/
structure ToolDef where
  Name : String
  Description : String
  Fn : SearchInput → String × Option String

/-- An `ai.Tool` interface value; `none` is the nil interface. -/
abbrev Tool := Option ToolDef

/-- A model response, represented by what its `Text()` method yields. -/
structure ModelResponse where
  Text : String
  deriving DecidableEq, Repr

end ai

namespace genkit

/-- The genkit handle built by `genkit.Init` with the Google AI plugin. -/
structure Genkit where
  APIKey : String
  deriving DecidableEq, Repr

/-- A model reference, `googlegenai.GoogleAIModel(g, name)`. -/
structure Model where
  Name : String
  deriving DecidableEq, Repr

/-- The options handed to one `genkit.Generate` call: `WithModel`,
`WithSystem`, `WithMessages`, `WithTools`, on the handle `g`. -/
structure GenerateRequest where
  g : Genkit
  Model : Model
  System : String
  Messages : List ai.Message
  Tools : List ai.Tool

/-- One `genkit.Generate` call: `(response, err)`. -/
abbrev Generate := GenerateRequest → Except String ai.ModelResponse

end genkit

namespace tavily

/-- Search depth, a string type in the tavily package; the zero value of
a field left out of a composite literal is the empty string. -/
abbrev SearchQueryDepth := String

/-- Depth constant `tavily.SearchQueryDepthAdvanced`. -/
def SearchQueryDepthAdvanced : SearchQueryDepth := "advanced"

/-- Answer inclusion, a string type in the tavily package; the zero value
of a field left out of a composite literal is the empty string. -/
abbrev SearchQueryIncludeAnswer := String

/-- Answer constant `tavily.SearchQueryIncludeAnswerBasic`. -/
def SearchQueryIncludeAnswerBasic : SearchQueryIncludeAnswer := "basic"

/-- The search request, `tavily.SearchQuery` (the fields the sources
set; every other field keeps its zero value in all three sources). -/
structure SearchQuery where
  Query : String
  SearchDepth : SearchQueryDepth := ""
  MaxResults : Int := 0
  IncludeAnswer : SearchQueryIncludeAnswer := ""
  IncludeRawContent : Bool := false
  IncludeImages : Bool := false
  deriving DecidableEq, Repr

/-- One ranked result (the fields the sources read). -/
structure SearchResult where
  Title : String
  URL : String
  Content : String
  deriving DecidableEq, Repr

/-- The search answer, `tavily.SearchAnswer`. -/
structure SearchAnswer where
  Answer : String := ""
  Results : List SearchResult := []
  deriving DecidableEq, Repr

/-- The `Search` method of a `tavily.Client`: `(answer, err)`. -/
abbrev Client := SearchQuery → Except String SearchAnswer

end tavily

namespace strings

/-- White space as `unicode.IsSpace` defines it: the Latin-1 spaces
`\t \n \v \f \r`, space, U+0085, U+00A0, and the code points of
category Z. -/
def isSpace (c : Char) : Bool :=
  c == '\t' || c == '\n' || c == '\x0b' || c == '\x0c' || c == '\r' || c == ' '
    || c == '\u0085' || c == '\u00a0' || c == '\u1680'
    || (decide (0x2000 ≤ c.toNat) && decide (c.toNat ≤ 0x200a))
    || c == '\u2028' || c == '\u2029' || c == '\u202f' || c == '\u205f'
    || c == '\u3000'

/-- The standard library's `strings.TrimSpace`: the string without its
leading and trailing white space. -/
def TrimSpace (s : String) : String :=
  String.mk ((s.data.dropWhile isSpace).reverse.dropWhile isSpace).reverse

end strings

/-! ## Package `main` (`cmd/cli-interactive/main.go`) -/

namespace main

/-- Agent represents a chat agent with web search capabilities. -/
structure Agent where
  g : genkit.Genkit
  model : genkit.Model
  searchTool : ai.Tool
  history : List ai.Message
  systemPrompt : String

/-- The `tavily.SearchQuery` literal of the tool function (lines 40-47). -/
def searchQuery (input : SearchInput) : tavily.SearchQuery :=
  { Query := input.Query
    SearchDepth := tavily.SearchQueryDepthAdvanced
    MaxResults := 5
    IncludeAnswer := tavily.SearchQueryIncludeAnswerBasic
    IncludeRawContent := false
    IncludeImages := false }

/-- One rendered item: `fmt.Sprintf("[%d] %s\nURL: %s\nContent: %s\n\n",
i+1, result.Title, result.URL, result.Content)`. -/
def formatItem (i : Nat) (result : tavily.SearchResult) : String :=
  "[" ++ toString (i + 1) ++ "] " ++ result.Title ++ "\nURL: " ++ result.URL
    ++ "\nContent: " ++ result.Content ++ "\n\n"

/-- The loop `for i, result := range results.Results` with
`formattedResults += ...`, from index `i` with the text so far. -/
def formatLoop : Nat → List tavily.SearchResult → String → String
  | _, [], formattedResults => formattedResults
  | i, result :: rest, formattedResults =>
      formatLoop (i + 1) rest (formattedResults ++ formatItem i result)

/-- The function handed to `genkit.DefineTool` by `createSearchTool`. -/
def searchToolFn (tavilyClient : tavily.Client) (input : SearchInput) :
    String × Option String :=
  match tavilyClient (searchQuery input) with
  | .error err => ("", some ("search error: " ++ err))
  | .ok results => (formatLoop 0 results.Results "", none)

/-- createSearchTool creates a search tool definition for the chat agent. -/
def createSearchTool (_g : genkit.Genkit) (tavilyClient : tavily.Client) : ai.Tool :=
  some
    { Name := "searchWeb"
      Description := "Search the web for current information to answer user queries. Use this when you need up-to-date or factual information."
      Fn := searchToolFn tavilyClient }

/-- The system prompt literal of `createChatAgent`. -/
def chatSystemPrompt : String :=
  "You are a helpful AI assistant that provides comprehensive and accurate answers based on web search results.\n\nInstructions:\n1. Provide a comprehensive answer to the user\x27s query based on the search results above\n2. Synthesize information from multiple sources when relevant\n3. Be factual and cite specific sources using [1], [2], etc. notation\n4. If the search results don\x27t contain enough information, acknowledge this\n5. Keep the answer clear and well-structured\n6. Use markdown formatting for better readability\n7. Please use the tool searchWeb always when you need to look up current information\n8. Add a section at the end titled \x22Sources\x22 listing the URLs of the references used"

/-- createChatAgent creates a chat agent with web search capabilities. -/
def createChatAgent (g : genkit.Genkit) (searchTool : ai.Tool) (model : genkit.Model) : Agent :=
  { g := g
    model := model
    searchTool := searchTool
    history := []
    systemPrompt := chatSystemPrompt }

/-- The user message `Send` appends for `query`. -/
def userMessage (query : String) : ai.Message :=
  { Role := ai.Role.RoleUser, Content := [ai.NewTextPart query] }

/-- The model message `Send` appends for `responseText`. -/
def modelMessage (responseText : String) : ai.Message :=
  { Role := ai.Role.RoleModel, Content := [ai.NewTextPart responseText] }

/-- The options of the `genkit.Generate` call in `Send`, for the agent
whose history already holds the new user message. -/
def generateRequest (a : Agent) : genkit.GenerateRequest :=
  { g := a.g
    Model := a.model
    System := a.systemPrompt
    Messages := a.history
    Tools := [a.searchTool] }

/-- The request of the generation call that `Send` makes for `query` on
the agent `a`: the options of lines 96-101 once the user message was
appended to the history. -/
def sendRequest (a : Agent) (query : String) : genkit.GenerateRequest :=
  generateRequest { a with history := a.history ++ [userMessage query] }

/-- Send sends a message to the agent and returns the response: the
agent afterwards and the pair `(text, err)`. -/
def Send (generate : genkit.Generate) (a : Agent) (query : String) :
    Agent × (String × Option String) :=
  let a1 := { a with history := a.history ++ [userMessage query] }
  match generate (generateRequest a1) with
  | .error err => (a1, ("", some ("generate error: " ++ err)))
  | .ok response =>
      let responseText := response.Text
      let a2 := { a1 with history := a1.history ++ [modelMessage responseText] }
      (a2, (responseText, none))

/-- ClearHistory clears the chat history. -/
def ClearHistory (a : Agent) : Agent :=
  { a with history := [] }

end main

namespace main

/-- A call the shell makes on its agent (recorded by the model, in call
order, to state which agent operations a run performs). -/
inductive AgentCall where
  | Send (input : String)
  | ClearHistory
  deriving DecidableEq, Repr

/-- What the shell prints, one constructor per print statement. -/
inductive Output where
  | welcome
  | farewell
  | usageHint
  | historyCleared
  | spinnerStart
  | spinnerStop
  | error (err : String)
  | answer (response : String)
  deriving DecidableEq, Repr

/-- The state of `startInteractive`: its agent, the agent calls made so
far, what was printed so far, and how many generation calls were made. -/
structure Shell where
  chatAgent : Agent
  calls : List AgentCall
  out : List Output
  generated : Nat

/-- The main loop of `startInteractive` (lines 150-191) over the results
of successive `rl.Readline()` calls; when the list is used up `Readline`
reports the end of input. -/
def loop (generate : Nat → genkit.Generate) : List (Except String String) → Shell → Shell
  | [], sh => sh
  | .error _ :: _, sh => sh
  | .ok line :: rest, sh =>
      let input := strings.TrimSpace line
      if input = "exit" ∨ input = "quit" then
        { sh with out := sh.out ++ [Output.farewell] }
      else if input = "" then
        loop generate rest { sh with out := sh.out ++ [Output.usageHint] }
      else if input = "clear" then
        loop generate rest
          { sh with
            chatAgent := ClearHistory sh.chatAgent
            calls := sh.calls ++ [AgentCall.ClearHistory]
            out := sh.out ++ [Output.historyCleared] }
      else
        let sent := Send (generate sh.generated) sh.chatAgent input
        let sh1 : Shell :=
          { chatAgent := sent.1
            calls := sh.calls ++ [AgentCall.Send input]
            out := sh.out ++ [Output.spinnerStart, Output.spinnerStop]
            generated := sh.generated + 1 }
        match sent.2.2 with
        | some err => loop generate rest { sh1 with out := sh1.out ++ [Output.error err] }
        | none => loop generate rest { sh1 with out := sh1.out ++ [Output.answer sent.2.1] }

/-- The function `startInteractive`: the error it returns and the shell
state it ends in. `readlineNew` is the error of `readline.New`, `reads`
the results of the `Readline` calls. -/
def startInteractive (generate : Nat → genkit.Generate) (readlineNew : Option String)
    (reads : List (Except String String)) (g : genkit.Genkit) (searchTool : ai.Tool)
    (model : genkit.Model) : Option String × Shell :=
  let chatAgent := createChatAgent g searchTool model
  let sh : Shell := { chatAgent := chatAgent, calls := [], out := [Output.welcome], generated := 0 }
  match readlineNew with
  | some err => (some ("readline error: " ++ err), sh)
  | none => (none, loop generate reads sh)

/-- Everything `main` reads from outside the program. -/
structure World where
  /-- the error of `godotenv.Load()`, `none` for nil -/
  envLoad : Option String
  /-- the environment as `os.Getenv` reads it, after loading -/
  Getenv : String → String
  /-- the command line, `os.Args` -/
  Args : List String
  /-- the constructor `tavily.NewClient(key, nil)` -/
  NewClient : String → Except String tavily.Client
  /-- the error of `readline.New` -/
  readlineNew : Option String
  /-- the results of the `Readline` calls -/
  reads : List (Except String String)
  /-- the generation calls of the model backend -/
  generate : Nat → genkit.Generate

/-- The construction steps of `main`, in the order it performs them. -/
inductive Step where
  | genkitInit
  | tavilyNewClient
  | createSearchTool
  | googleAIModel
  | definePrompt
  | defineFlow
  | startInteractive
  deriving DecidableEq, Repr

/-- How a run of `main` ends: `os.Exit(code)`, a run-time panic, the
endless `select {}` of serve mode, or a return from `main`. -/
inductive Outcome where
  | exit (code : Nat)
  | panic
  | idle
  | returned
  deriving DecidableEq, Repr

/-- The exit status of the process, if it ends: the code of `os.Exit`, 2
for a panic, 0 for a return from `main`. -/
def Outcome.status : Outcome → Option Nat
  | Outcome.exit code => some code
  | Outcome.panic => some 2
  | Outcome.idle => none
  | Outcome.returned => some 0

/-- A run of `main`: the steps performed, how it ended, and the shell
state if `startInteractive` was called. -/
structure Run where
  steps : List Step
  outcome : Outcome
  shell : Option Shell

/-- The function `main` (lines 196-285). `genkit.DefinePrompt` (lines
248-255) is handed the tool through `ai.WithTools(searchTool)` and panics
when the tool is the nil interface, which is before the serve test of
line 269 and the guard of line 275. -/
def main (w : World) : Run :=
  match w.envLoad with
  | some _ => { steps := [], outcome := Outcome.exit 1, shell := none }
  | none =>
    let geminiKey := w.Getenv "GEMINI_API_KEY"
    let tavilyKey := w.Getenv "TAVILY_API_KEY"
    if geminiKey = "" then
      { steps := [], outcome := Outcome.exit 1, shell := none }
    else
      let g : genkit.Genkit := { APIKey := geminiKey }
      let tool : ai.Tool × List Step :=
        if tavilyKey ≠ "" then
          match w.NewClient tavilyKey with
          | .ok tavilyClient =>
              (createSearchTool g tavilyClient, [Step.tavilyNewClient, Step.createSearchTool])
          | .error _ => (none, [Step.tavilyNewClient])
        else (none, [])
      let searchTool := tool.1
      let model : genkit.Model := { Name := "gemini-2.5-pro" }
      let built := [Step.genkitInit] ++ tool.2 ++ [Step.googleAIModel]
      if searchTool.isNone then
        { steps := built, outcome := Outcome.panic, shell := none }
      else
      let steps := built ++ [Step.definePrompt, Step.defineFlow]
      if 1 < w.Args.length ∧ w.Args.get? 1 = some "serve" then
        { steps := steps, outcome := Outcome.idle, shell := none }
      else if tavilyKey = "" ∨ searchTool.isNone then
        { steps := steps, outcome := Outcome.exit 1, shell := none }
      else
        let started := startInteractive w.generate w.readlineNew w.reads g searchTool model
        match started.1 with
        | some _ =>
            { steps := steps ++ [Step.startInteractive], outcome := Outcome.exit 1,
              shell := some started.2 }
        | none =>
            { steps := steps ++ [Step.startInteractive], outcome := Outcome.returned,
              shell := some started.2 }

end main

/-! ## Package `agent` (`cmd/cli-interactive/src/agent.go`, `search.go`) -/

namespace agent

/-- Agent represents a chat agent with web search capabilities. -/
structure Agent where
  g : genkit.Genkit
  model : genkit.Model
  searchTool : ai.Tool
  history : List ai.Message
  systemPrompt : String

/-- The `tavily.SearchQuery` literal of the tool function (agent.go,
lines 37-40): only `Query` and `MaxResults` are set. -/
def searchQuery (input : SearchInput) : tavily.SearchQuery :=
  { Query := input.Query
    MaxResults := 5 }

/-- One rendered item: `fmt.Sprintf("[%d] %s\nURL: %s\nContent: %s\n\n",
i+1, result.Title, result.URL, result.Content)`. -/
def formatItem (i : Nat) (result : tavily.SearchResult) : String :=
  "[" ++ toString (i + 1) ++ "] " ++ result.Title ++ "\nURL: " ++ result.URL
    ++ "\nContent: " ++ result.Content ++ "\n\n"

/-- The loop `for i, result := range results.Results` with
`formattedResults += ...`, from index `i` with the text so far. -/
def formatLoop : Nat → List tavily.SearchResult → String → String
  | _, [], formattedResults => formattedResults
  | i, result :: rest, formattedResults =>
      formatLoop (i + 1) rest (formattedResults ++ formatItem i result)

/-- The function handed to `genkit.DefineTool` by `CreateSearchTool`. -/
def searchToolFn (tavilyClient : tavily.Client) (input : SearchInput) :
    String × Option String :=
  match tavilyClient (searchQuery input) with
  | .error err => ("", some ("search error: " ++ err))
  | .ok results => (formatLoop 0 results.Results "", none)

/-- CreateSearchTool creates a search tool definition for the chat agent. -/
def CreateSearchTool (_g : genkit.Genkit) (tavilyClient : tavily.Client) : ai.Tool :=
  some
    { Name := "searchWeb"
      Description := "Search the web for current information to answer user queries. Use this when you need up-to-date or factual information."
      Fn := searchToolFn tavilyClient }

/-- The system prompt literal of `CreateChatAgent`. -/
def chatSystemPrompt : String :=
  "You are a helpful AI assistant that provides comprehensive and accurate answers based on web search results.\n\nInstructions:\n1. Provide a comprehensive answer to the user\x27s query based on the search results above\n2. Synthesize information from multiple sources when relevant\n3. Be factual and cite specific sources using [1], [2], etc. notation\n4. If the search results don\x27t contain enough information, acknowledge this\n5. Keep the answer clear and well-structured\n6. Use markdown formatting for better readability\n7. Please use the tool searchWeb always when you need to look up current information\n8. Add a section at the end titled \x22Sources\x22 listing the URLs of the references used"

/-- CreateChatAgent creates a chat agent with web search capabilities. -/
def CreateChatAgent (g : genkit.Genkit) (tavilyClient : tavily.Client)
    (model : genkit.Model) : Agent :=
  let searchTool := CreateSearchTool g tavilyClient
  { g := g
    model := model
    searchTool := searchTool
    history := []
    systemPrompt := chatSystemPrompt }

/-- The user message `Send` appends for `query`. -/
def userMessage (query : String) : ai.Message :=
  { Role := ai.Role.RoleUser, Content := [ai.NewTextPart query] }

/-- The model message `Send` appends for `responseText`. -/
def modelMessage (responseText : String) : ai.Message :=
  { Role := ai.Role.RoleModel, Content := [ai.NewTextPart responseText] }

/-- The options of the `genkit.Generate` call in `Send`, for the agent
whose history already holds the new user message. -/
def generateRequest (a : Agent) : genkit.GenerateRequest :=
  { g := a.g
    Model := a.model
    System := a.systemPrompt
    Messages := a.history
    Tools := [a.searchTool] }

/-- The request of the generation call that `Send` makes for `query` on
the agent `a`: the options of lines 92-97 once the user message was
appended to the history. -/
def sendRequest (a : Agent) (query : String) : genkit.GenerateRequest :=
  generateRequest { a with history := a.history ++ [userMessage query] }

/-- Send sends a message to the agent and returns the response: the
agent afterwards and the pair `(text, err)`. -/
def Send (generate : genkit.Generate) (a : Agent) (query : String) :
    Agent × (String × Option String) :=
  let a1 := { a with history := a.history ++ [userMessage query] }
  match generate (generateRequest a1) with
  | .error err => (a1, ("", some ("generate error: " ++ err)))
  | .ok response =>
      let responseText := response.Text
      let a2 := { a1 with history := a1.history ++ [modelMessage responseText] }
      (a2, (responseText, none))

/-- ClearHistory clears the chat history. -/
def ClearHistory (a : Agent) : Agent :=
  { a with history := [] }

/-- The `tavily.SearchQuery` literal of `SearchWeb` (search.go, lines
16-23), for the `maxResults` the function holds at that point. -/
def webSearchQuery (query : String) (maxResults : Int) : tavily.SearchQuery :=
  { Query := query
    SearchDepth := tavily.SearchQueryDepthAdvanced
    MaxResults := maxResults
    IncludeAnswer := tavily.SearchQueryIncludeAnswerBasic
    IncludeRawContent := false
    IncludeImages := false }

/-- The request `SearchWeb` sends: the literal after the default for a
non-positive `maxResults` was applied (search.go, lines 12-23). -/
def SearchWebRequest (query : String) (maxResults : Int) : tavily.SearchQuery :=
  let maxResults := if maxResults ≤ 0 then 5 else maxResults
  webSearchQuery query maxResults

/-- SearchWeb searches the web using Tavily API: `(answer, err)`. -/
def SearchWeb (client : tavily.Client) (query : String) (maxResults : Int) :
    tavily.SearchAnswer × Option String :=
  match client (SearchWebRequest query maxResults) with
  | .error err => ({}, some ("Tavily search failed: " ++ err))
  | .ok response => (response, none)

end agent

/-! ## Runs of agent operations

Sequences of calls on one agent, used to state the properties of `Send`
and `ClearHistory` over whole conversations. Generation call number `k`
of a run is answered by `generate k`. -/

namespace main

/-- Successive `Send` calls, one per query of the list, the first one
being generation call number `k`: the agent afterwards and what each call
returned. -/
def sendAll (generate : Nat → genkit.Generate) :
    Nat → Agent → List String → Agent × List (String × Option String)
  | _, a, [] => (a, [])
  | k, a, query :: queries =>
      let sent := Send (generate k) a query
      let rest := sendAll generate (k + 1) sent.1 queries
      (rest.1, sent.2 :: rest.2)

/-- In the run of `Send` calls with the queries of `qrs`, every
generation call succeeds, the call for the query `q` of a pair `(q, r)`
with a response whose text is `r`. -/
def backendAnswers (generate : Nat → genkit.Generate) :
    Nat → Agent → List (String × String) → Prop
  | _, _, [] => True
  | k, a, (q, r) :: rest =>
      generate k
          { g := a.g
            Model := a.model
            System := a.systemPrompt
            Messages := a.history ++ [{ Role := ai.Role.RoleUser, Content := [{ Text := q }] }]
            Tools := [a.searchTool] }
          = Except.ok { Text := r }
        ∧ backendAnswers generate (k + 1) (Send (generate k) a q).1 rest

/-- The history `[User q1, Model r1, ..., User qN, Model rN]`. -/
def transcript : List (String × String) → List ai.Message
  | [] => []
  | (q, r) :: rest =>
      { Role := ai.Role.RoleUser, Content := [{ Text := q }] }
        :: { Role := ai.Role.RoleModel, Content := [{ Text := r }] }
        :: transcript rest

/-- An operation on an agent: a `Send` with its generation call, or a
`ClearHistory`. -/
inductive Op where
  | Send (generate : genkit.Generate) (query : String)
  | ClearHistory

/-- The agent after a sequence of operations. -/
def perform : Agent → List Op → Agent
  | a, [] => a
  | a, Op.Send generate query :: ops => perform (Send generate a query).1 ops
  | a, Op.ClearHistory :: ops => perform (ClearHistory a) ops

end main

namespace agent

/-- Successive `Send` calls, one per query of the list, the first one
being generation call number `k`: the agent afterwards and what each call
returned. -/
def sendAll (generate : Nat → genkit.Generate) :
    Nat → Agent → List String → Agent × List (String × Option String)
  | _, a, [] => (a, [])
  | k, a, query :: queries =>
      let sent := Send (generate k) a query
      let rest := sendAll generate (k + 1) sent.1 queries
      (rest.1, sent.2 :: rest.2)

/-- In the run of `Send` calls with the queries of `qrs`, every
generation call succeeds, the call for the query `q` of a pair `(q, r)`
with a response whose text is `r`. -/
def backendAnswers (generate : Nat → genkit.Generate) :
    Nat → Agent → List (String × String) → Prop
  | _, _, [] => True
  | k, a, (q, r) :: rest =>
      generate k
          { g := a.g
            Model := a.model
            System := a.systemPrompt
            Messages := a.history ++ [{ Role := ai.Role.RoleUser, Content := [{ Text := q }] }]
            Tools := [a.searchTool] }
          = Except.ok { Text := r }
        ∧ backendAnswers generate (k + 1) (Send (generate k) a q).1 rest

/-- The history `[User q1, Model r1, ..., User qN, Model rN]`. -/
def transcript : List (String × String) → List ai.Message
  | [] => []
  | (q, r) :: rest =>
      { Role := ai.Role.RoleUser, Content := [{ Text := q }] }
        :: { Role := ai.Role.RoleModel, Content := [{ Text := r }] }
        :: transcript rest

/-- An operation on an agent: a `Send` with its generation call, or a
`ClearHistory`. -/
inductive Op where
  | Send (generate : genkit.Generate) (query : String)
  | ClearHistory

/-- The agent after a sequence of operations. -/
def perform : Agent → List Op → Agent
  | a, [] => a
  | a, Op.Send generate query :: ops => perform (Send generate a query).1 ops
  | a, Op.ClearHistory :: ops => perform (ClearHistory a) ops

end agent

/-! ## Sample inputs

Concrete collaborators on which the properties below are instantiated. -/

namespace sample

/-- A genkit handle. -/
def g : genkit.Genkit := { APIKey := "gemini-key" }

/-- A model reference. -/
def model : genkit.Model := { Name := "gemini-2.5-pro" }

/-- Two ranked results. -/
def results : List tavily.SearchResult :=
  [{ Title := "A", URL := "urlA", Content := "ctA" },
   { Title := "B", URL := "urlB", Content := "ctB" }]

/-- A search client that always finds the two sample results. -/
def tavilyClient : tavily.Client := fun _ => Except.ok { Results := results }

/-- A search client whose calls fail. -/
def tavilyDown : tavily.Client := fun _ => Except.error "503"

/-- A backend that answers its first call with `first` and every later
call with `later`. -/
def generate : Nat → genkit.Generate := fun k _ =>
  if k = 0 then Except.ok { Text := "first" } else Except.ok { Text := "later" }

/-- A backend whose second call fails. -/
def flaky : Nat → genkit.Generate := fun k _ =>
  if k = 1 then Except.error "quota" else Except.ok { Text := "fine" }

/-- A backend call that fails. -/
def failing : genkit.Generate := fun _ => Except.error "quota"

/-- A shell at the start of its loop, as `startInteractive` sets it up. -/
def shell : main.Shell :=
  { chatAgent := main.createChatAgent g (main.createSearchTool g tavilyClient) model
    calls := []
    out := [main.Output.welcome]
    generated := 0 }

/-- A shell that already made one generation call. -/
def shellLater : main.Shell :=
  { shell with calls := [main.AgentCall.Send "hello"], generated := 1 }

/-- An environment with only the model backend key. -/
def onlyGemini : String → String := fun name =>
  if name = "GEMINI_API_KEY" then "gemini-key" else ""

/-- An environment with both keys. -/
def bothKeys : String → String := fun name =>
  if name = "GEMINI_API_KEY" then "gemini-key"
  else if name = "TAVILY_API_KEY" then "tavily-key" else ""

/-- A start in default mode with only the model backend key, the `.env`
file loaded. -/
def world : main.World :=
  { envLoad := none
    Getenv := onlyGemini
    Args := ["cli-interactive"]
    NewClient := fun _ => Except.ok tavilyClient
    readlineNew := none
    reads := [Except.ok "hello", Except.ok "exit"]
    generate := generate }

/-- A start in serve mode with only the model backend key. -/
def worldServe : main.World :=
  { world with Args := ["cli-interactive", "serve"] }

/-- A start in default mode with both keys. -/
def worldBoth : main.World :=
  { world with Getenv := bothKeys }

/-- A start in default mode with both keys when `tavily.NewClient` fails. -/
def worldClientFails : main.World :=
  { worldBoth with NewClient := fun _ => Except.error "invalid key" }

/-- An agent of package `main` as the program builds it, holding one
exchange. -/
def chatAgent : main.Agent :=
  { main.createChatAgent g (main.createSearchTool g tavilyClient) model with
    history :=
      [{ Role := ai.Role.RoleUser, Content := [{ Text := "hello" }] },
       { Role := ai.Role.RoleModel, Content := [{ Text := "first" }] }] }

/-- An agent of package `agent` as its constructor builds it, holding
one exchange. -/
def pkgAgent : agent.Agent :=
  { agent.CreateChatAgent g tavilyClient model with
    history :=
      [{ Role := ai.Role.RoleUser, Content := [{ Text := "hello" }] },
       { Role := ai.Role.RoleModel, Content := [{ Text := "first" }] }] }

end sample

/-! ## Properties of `Send` and `ClearHistory` -/

namespace main

theorem Send_eq (generate : genkit.Generate) (a : Agent) (q : String) :
    Send generate a q =
      match generate (sendRequest a q) with
      | Except.error err =>
          ({ a with history := a.history ++ [userMessage q] },
            ("", some ("generate error: " ++ err)))
      | Except.ok response =>
          ({ a with history := a.history ++ [userMessage q] ++ [modelMessage response.Text] },
            (response.Text, none)) := by
  simp only [Send, sendRequest]

theorem Send_ok (generate : genkit.Generate) (a : Agent) (q r : String)
    (h : generate (sendRequest a q) = Except.ok { Text := r }) :
    Send generate a q
      = ({ a with history := a.history ++ [userMessage q] ++ [modelMessage r] }, (r, none)) := by
  rw [Send_eq, h]

theorem Send_error (generate : genkit.Generate) (a : Agent) (q err : String)
    (h : generate (sendRequest a q) = Except.error err) :
    Send generate a q
      = ({ a with history := a.history ++ [userMessage q] },
          ("", some ("generate error: " ++ err))) := by
  rw [Send_eq, h]

theorem transcript_length (qrs : List (String × String)) :
    (transcript qrs).length = 2 * qrs.length := by
  induction qrs with
  | nil => rfl
  | cons p rest ih =>
      obtain ⟨q, r⟩ := p
      simp [transcript, ih]
      omega

theorem sendAll_answered (generate : Nat → genkit.Generate) (qrs : List (String × String)) :
    ∀ (k : Nat) (a : Agent), backendAnswers generate k a qrs →
      (sendAll generate k a (qrs.map Prod.fst)).1.history = a.history ++ transcript qrs
        ∧ (sendAll generate k a (qrs.map Prod.fst)).2 = qrs.map (fun p => (p.2, none)) := by
  induction qrs with
  | nil => intro k a _; simp [sendAll, transcript]
  | cons p rest ih =>
      obtain ⟨q, r⟩ := p
      intro k a h
      obtain ⟨h1, h2⟩ := h
      have hs := Send_ok (generate k) a q r h1
      rw [hs] at h2
      obtain ⟨ih1, ih2⟩ := ih (k + 1) _ h2
      simp only [List.map_cons, sendAll, hs]
      refine ⟨?_, ?_⟩
      · rw [ih1]; simp [transcript, userMessage, modelMessage, ai.NewTextPart]
      · rw [ih2]

theorem Send_config (generate : genkit.Generate) (a : Agent) (q : String) :
    (Send generate a q).1.g = a.g ∧ (Send generate a q).1.model = a.model
      ∧ (Send generate a q).1.searchTool = a.searchTool
      ∧ (Send generate a q).1.systemPrompt = a.systemPrompt := by
  rw [Send_eq]
  cases generate (sendRequest a q) <;> exact ⟨rfl, rfl, rfl, rfl⟩

theorem perform_config (ops : List Op) :
    ∀ a : Agent, (perform a ops).g = a.g ∧ (perform a ops).model = a.model
      ∧ (perform a ops).searchTool = a.searchTool
      ∧ (perform a ops).systemPrompt = a.systemPrompt := by
  induction ops with
  | nil => intro a; exact ⟨rfl, rfl, rfl, rfl⟩
  | cons op ops ih =>
      intro a
      cases op with
      | Send generate query =>
          obtain ⟨h1, h2, h3, h4⟩ := ih (Send generate a query).1
          obtain ⟨e1, e2, e3, e4⟩ := Send_config generate a query
          exact ⟨h1.trans e1, h2.trans e2, h3.trans e3, h4.trans e4⟩
      | ClearHistory => exact ih (ClearHistory a)

end main

namespace agent

theorem agent_Send_eq (generate : genkit.Generate) (a : Agent) (q : String) :
    Send generate a q =
      match generate (sendRequest a q) with
      | Except.error err =>
          ({ a with history := a.history ++ [userMessage q] },
            ("", some ("generate error: " ++ err)))
      | Except.ok response =>
          ({ a with history := a.history ++ [userMessage q] ++ [modelMessage response.Text] },
            (response.Text, none)) := by
  simp only [Send, sendRequest]

theorem agent_Send_ok (generate : genkit.Generate) (a : Agent) (q r : String)
    (h : generate (sendRequest a q) = Except.ok { Text := r }) :
    Send generate a q
      = ({ a with history := a.history ++ [userMessage q] ++ [modelMessage r] }, (r, none)) := by
  rw [agent_Send_eq, h]

theorem agent_Send_error (generate : genkit.Generate) (a : Agent) (q err : String)
    (h : generate (sendRequest a q) = Except.error err) :
    Send generate a q
      = ({ a with history := a.history ++ [userMessage q] },
          ("", some ("generate error: " ++ err))) := by
  rw [agent_Send_eq, h]

theorem agent_transcript_length (qrs : List (String × String)) :
    (transcript qrs).length = 2 * qrs.length := by
  induction qrs with
  | nil => rfl
  | cons p rest ih =>
      obtain ⟨q, r⟩ := p
      simp [transcript, ih]
      omega

theorem agent_sendAll_answered (generate : Nat → genkit.Generate) (qrs : List (String × String)) :
    ∀ (k : Nat) (a : Agent), backendAnswers generate k a qrs →
      (sendAll generate k a (qrs.map Prod.fst)).1.history = a.history ++ transcript qrs
        ∧ (sendAll generate k a (qrs.map Prod.fst)).2 = qrs.map (fun p => (p.2, none)) := by
  induction qrs with
  | nil => intro k a _; simp [sendAll, transcript]
  | cons p rest ih =>
      obtain ⟨q, r⟩ := p
      intro k a h
      obtain ⟨h1, h2⟩ := h
      have hs := agent_Send_ok (generate k) a q r h1
      rw [hs] at h2
      obtain ⟨ih1, ih2⟩ := ih (k + 1) _ h2
      simp only [List.map_cons, sendAll, hs]
      refine ⟨?_, ?_⟩
      · rw [ih1]; simp [transcript, userMessage, modelMessage, ai.NewTextPart]
      · rw [ih2]

theorem agent_Send_config (generate : genkit.Generate) (a : Agent) (q : String) :
    (Send generate a q).1.g = a.g ∧ (Send generate a q).1.model = a.model
      ∧ (Send generate a q).1.searchTool = a.searchTool
      ∧ (Send generate a q).1.systemPrompt = a.systemPrompt := by
  rw [agent_Send_eq]
  cases generate (sendRequest a q) <;> exact ⟨rfl, rfl, rfl, rfl⟩

theorem agent_perform_config (ops : List Op) :
    ∀ a : Agent, (perform a ops).g = a.g ∧ (perform a ops).model = a.model
      ∧ (perform a ops).searchTool = a.searchTool
      ∧ (perform a ops).systemPrompt = a.systemPrompt := by
  induction ops with
  | nil => intro a; exact ⟨rfl, rfl, rfl, rfl⟩
  | cons op ops ih =>
      intro a
      cases op with
      | Send generate query =>
          obtain ⟨h1, h2, h3, h4⟩ := ih (Send generate a query).1
          obtain ⟨e1, e2, e3, e4⟩ := agent_Send_config generate a query
          exact ⟨h1.trans e1, h2.trans e2, h3.trans e3, h4.trans e4⟩
      | ClearHistory => exact ih (ClearHistory a)

end agent

/-! ## The conversation agent: claims C1 to C4 -/

theorem transcript_eq_flatMap (qrs : List (String × String)) :
    main.transcript qrs
      = qrs.flatMap fun p =>
          ([{ Role := ai.Role.RoleUser, Content := [{ Text := p.1 }] },
            { Role := ai.Role.RoleModel, Content := [{ Text := p.2 }] }] : List ai.Message) := by
  induction qrs with
  | nil => rfl
  | cons p rest ih =>
      obtain ⟨q, r⟩ := p
      simp [main.transcript, ih]

theorem agent_transcript_eq_flatMap (qrs : List (String × String)) :
    agent.transcript qrs
      = qrs.flatMap fun p =>
          ([{ Role := ai.Role.RoleUser, Content := [{ Text := p.1 }] },
            { Role := ai.Role.RoleModel, Content := [{ Text := p.2 }] }] : List ai.Message) := by
  induction qrs with
  | nil => rfl
  | cons p rest ih =>
      obtain ⟨q, r⟩ := p
      simp [agent.transcript, ih]

/-- C1: starting from a freshly created agent, if the generation calls of
N successive `Send` calls with queries q1..qN all succeed, with response
texts r1..rN, then the history afterwards is exactly the list of the
messages `User qi` (role `RoleUser`, one text part `qi`) and `Model ri`
(role `RoleModel`, one text part `ri`), alternating, in the order of the
calls, its length is `2 * N`, and the i-th `Send` returned `(ri, nil)`;
in package `main` and in package `agent`. -/
theorem C1_history_after_successful_sends (generate : Nat → genkit.Generate)
    (g : genkit.Genkit) (searchTool : ai.Tool) (tavilyClient : tavily.Client)
    (model : genkit.Model) (qrs : List (String × String)) :
    (main.backendAnswers generate 0 (main.createChatAgent g searchTool model) qrs →
      (main.sendAll generate 0 (main.createChatAgent g searchTool model)
          (qrs.map Prod.fst)).1.history
          = (qrs.flatMap fun p =>
              ([{ Role := ai.Role.RoleUser, Content := [{ Text := p.1 }] },
                { Role := ai.Role.RoleModel, Content := [{ Text := p.2 }] }] : List ai.Message))
        ∧ (main.sendAll generate 0 (main.createChatAgent g searchTool model)
          (qrs.map Prod.fst)).1.history.length = 2 * qrs.length
        ∧ (main.sendAll generate 0 (main.createChatAgent g searchTool model)
          (qrs.map Prod.fst)).2 = qrs.map (fun p => (p.2, none)))
    ∧ (agent.backendAnswers generate 0 (agent.CreateChatAgent g tavilyClient model) qrs →
      (agent.sendAll generate 0 (agent.CreateChatAgent g tavilyClient model)
          (qrs.map Prod.fst)).1.history
          = (qrs.flatMap fun p =>
              ([{ Role := ai.Role.RoleUser, Content := [{ Text := p.1 }] },
                { Role := ai.Role.RoleModel, Content := [{ Text := p.2 }] }] : List ai.Message))
        ∧ (agent.sendAll generate 0 (agent.CreateChatAgent g tavilyClient model)
          (qrs.map Prod.fst)).1.history.length = 2 * qrs.length
        ∧ (agent.sendAll generate 0 (agent.CreateChatAgent g tavilyClient model)
          (qrs.map Prod.fst)).2 = qrs.map (fun p => (p.2, none))) := by
  constructor
  · intro h
    obtain ⟨h1, h2⟩ := main.sendAll_answered generate qrs 0 _ h
    have e : (main.sendAll generate 0 (main.createChatAgent g searchTool model)
        (qrs.map Prod.fst)).1.history = main.transcript qrs := by
      rw [h1]; simp [main.createChatAgent]
    exact ⟨by rw [e, transcript_eq_flatMap], by rw [e, main.transcript_length], h2⟩
  · intro h
    obtain ⟨h1, h2⟩ := agent.agent_sendAll_answered generate qrs 0 _ h
    have e : (agent.sendAll generate 0 (agent.CreateChatAgent g tavilyClient model)
        (qrs.map Prod.fst)).1.history = agent.transcript qrs := by
      rw [h1]; simp [agent.CreateChatAgent]
    exact ⟨by rw [e, agent_transcript_eq_flatMap], by rw [e, agent.agent_transcript_length], h2⟩

/-- C1 on a conversation of two queries, answered `first` and `later`,
with agents built as the program builds them. -/
theorem C1_history_after_successful_sends_witness :
    ((main.sendAll sample.generate 0
          (main.createChatAgent sample.g
            (main.createSearchTool sample.g sample.tavilyClient) sample.model)
          ["hello", "and then"]).1.history
        = [{ Role := ai.Role.RoleUser, Content := [{ Text := "hello" }] },
           { Role := ai.Role.RoleModel, Content := [{ Text := "first" }] },
           { Role := ai.Role.RoleUser, Content := [{ Text := "and then" }] },
           { Role := ai.Role.RoleModel, Content := [{ Text := "later" }] }]
      ∧ (main.sendAll sample.generate 0
          (main.createChatAgent sample.g
            (main.createSearchTool sample.g sample.tavilyClient) sample.model)
          ["hello", "and then"]).1.history.length = 4
      ∧ (main.sendAll sample.generate 0
          (main.createChatAgent sample.g
            (main.createSearchTool sample.g sample.tavilyClient) sample.model)
          ["hello", "and then"]).2 = [("first", none), ("later", none)])
    ∧ ((agent.sendAll sample.generate 0
          (agent.CreateChatAgent sample.g sample.tavilyClient sample.model)
          ["hello", "and then"]).1.history
        = [{ Role := ai.Role.RoleUser, Content := [{ Text := "hello" }] },
           { Role := ai.Role.RoleModel, Content := [{ Text := "first" }] },
           { Role := ai.Role.RoleUser, Content := [{ Text := "and then" }] },
           { Role := ai.Role.RoleModel, Content := [{ Text := "later" }] }]
      ∧ (agent.sendAll sample.generate 0
          (agent.CreateChatAgent sample.g sample.tavilyClient sample.model)
          ["hello", "and then"]).1.history.length = 4
      ∧ (agent.sendAll sample.generate 0
          (agent.CreateChatAgent sample.g sample.tavilyClient sample.model)
          ["hello", "and then"]).2 = [("first", none), ("later", none)]) :=
  ⟨(C1_history_after_successful_sends sample.generate sample.g
      (main.createSearchTool sample.g sample.tavilyClient) sample.tavilyClient
      sample.model [("hello", "first"), ("and then", "later")]).1
      ⟨rfl, rfl, trivial⟩,
   (C1_history_after_successful_sends sample.generate sample.g
      (main.createSearchTool sample.g sample.tavilyClient) sample.tavilyClient
      sample.model [("hello", "first"), ("and then", "later")]).2
      ⟨rfl, rfl, trivial⟩⟩

/-- C2: for every agent with history `h` and every query `q`, if the
generation call of `Send` (on the history `h` followed by the User
message for `q`) errors, `Send` returns the empty text together with an
error (the backend error wrapped as `generate error: ...`), and the
history afterwards is exactly `h` followed by one message of role
`RoleUser` whose one text part is `q`, the rest of the agent being
unchanged; in package `main` and in package `agent`. -/
theorem C2_failed_send_keeps_query (generate : genkit.Generate) (a : main.Agent)
    (b : agent.Agent) (q err : String) :
    (generate
          { g := a.g
            Model := a.model
            System := a.systemPrompt
            Messages := a.history ++ [{ Role := ai.Role.RoleUser, Content := [{ Text := q }] }]
            Tools := [a.searchTool] }
        = Except.error err →
      (main.Send generate a q).2 = ("", some ("generate error: " ++ err))
        ∧ (main.Send generate a q).1.history
            = a.history ++ [{ Role := ai.Role.RoleUser, Content := [{ Text := q }] }]
        ∧ (main.Send generate a q).1
            = { a with
                history :=
                  a.history ++ [{ Role := ai.Role.RoleUser, Content := [{ Text := q }] }] })
    ∧ (generate
          { g := b.g
            Model := b.model
            System := b.systemPrompt
            Messages := b.history ++ [{ Role := ai.Role.RoleUser, Content := [{ Text := q }] }]
            Tools := [b.searchTool] }
        = Except.error err →
      (agent.Send generate b q).2 = ("", some ("generate error: " ++ err))
        ∧ (agent.Send generate b q).1.history
            = b.history ++ [{ Role := ai.Role.RoleUser, Content := [{ Text := q }] }]
        ∧ (agent.Send generate b q).1
            = { b with
                history :=
                  b.history ++ [{ Role := ai.Role.RoleUser, Content := [{ Text := q }] }] }) := by
  constructor
  · intro h
    rw [main.Send_error generate a q err h]
    exact ⟨rfl, rfl, rfl⟩
  · intro h
    rw [agent.agent_Send_error generate b q err h]
    exact ⟨rfl, rfl, rfl⟩

/-- C2 on agents that already hold one exchange, with a failing backend
call. -/
theorem C2_failed_send_keeps_query_witness :
    ((main.Send sample.failing sample.chatAgent "again").2
        = ("", some "generate error: quota")
      ∧ (main.Send sample.failing sample.chatAgent "again").1.history
        = [{ Role := ai.Role.RoleUser, Content := [{ Text := "hello" }] },
           { Role := ai.Role.RoleModel, Content := [{ Text := "first" }] },
           { Role := ai.Role.RoleUser, Content := [{ Text := "again" }] }])
    ∧ ((agent.Send sample.failing sample.pkgAgent "again").2
        = ("", some "generate error: quota")
      ∧ (agent.Send sample.failing sample.pkgAgent "again").1.history
        = [{ Role := ai.Role.RoleUser, Content := [{ Text := "hello" }] },
           { Role := ai.Role.RoleModel, Content := [{ Text := "first" }] },
           { Role := ai.Role.RoleUser, Content := [{ Text := "again" }] }]) :=
  ⟨⟨((C2_failed_send_keeps_query sample.failing sample.chatAgent sample.pkgAgent
        "again" "quota").1 rfl).1,
     ((C2_failed_send_keeps_query sample.failing sample.chatAgent sample.pkgAgent
        "again" "quota").1 rfl).2.1⟩,
   ⟨((C2_failed_send_keeps_query sample.failing sample.chatAgent sample.pkgAgent
        "again" "quota").2 rfl).1,
     ((C2_failed_send_keeps_query sample.failing sample.chatAgent sample.pkgAgent
        "again" "quota").2 rfl).2.1⟩⟩

/-- C3: for every agent, `ClearHistory` leaves the history empty (length
0) and leaves the genkit handle, the model reference, the search tool
and the system prompt unchanged; the generation call of a `Send` made
right after it carries the one new User message and nothing else, and
that `Send` is decided by the answer to this call; in package `main` and
in package `agent`. -/
theorem C3_clear_history_frame (generate : genkit.Generate) (a : main.Agent)
    (b : agent.Agent) (q : String) :
    ((main.ClearHistory a).history = []
      ∧ (main.ClearHistory a).history.length = 0
      ∧ (main.ClearHistory a).systemPrompt = a.systemPrompt
      ∧ (main.ClearHistory a).model = a.model
      ∧ (main.ClearHistory a).searchTool = a.searchTool
      ∧ (main.ClearHistory a).g = a.g
      ∧ (main.sendRequest (main.ClearHistory a) q).Messages = [main.userMessage q]
      ∧ main.Send generate (main.ClearHistory a) q
          = main.Send (fun _ => generate (main.sendRequest (main.ClearHistory a) q))
              (main.ClearHistory a) q)
    ∧ ((agent.ClearHistory b).history = []
      ∧ (agent.ClearHistory b).history.length = 0
      ∧ (agent.ClearHistory b).systemPrompt = b.systemPrompt
      ∧ (agent.ClearHistory b).model = b.model
      ∧ (agent.ClearHistory b).searchTool = b.searchTool
      ∧ (agent.ClearHistory b).g = b.g
      ∧ (agent.sendRequest (agent.ClearHistory b) q).Messages = [agent.userMessage q]
      ∧ agent.Send generate (agent.ClearHistory b) q
          = agent.Send (fun _ => generate (agent.sendRequest (agent.ClearHistory b) q))
              (agent.ClearHistory b) q) := by
  refine ⟨⟨rfl, rfl, rfl, rfl, rfl, rfl, rfl, ?_⟩, ⟨rfl, rfl, rfl, rfl, rfl, rfl, rfl, ?_⟩⟩
  · rw [main.Send_eq, main.Send_eq]
  · rw [agent.agent_Send_eq, agent.agent_Send_eq]

/-- C4: for every agent with history `h` and every query `q`, the
generation call of `Send` carries the whole history `h` in order
followed by one new message of role `RoleUser` whose one text part is
`q`, together with the agent's system prompt, its model and its search
tool, and `Send` is decided by the answer to this one call: on an error
the message for `q` stays appended, on a response the message of role
`RoleModel` with the response text is appended after it and the text is
returned. After any sequence of `Send` and `ClearHistory` operations the
system prompt and the tool of the call are still those of the agent at
the start, and for a created agent the prompt is the literal of its
constructor; in package `main` and in package `agent`. -/
theorem C4_send_passes_whole_history (generate : genkit.Generate) (a : main.Agent)
    (b : agent.Agent) (q : String) (ops : List main.Op) (bops : List agent.Op)
    (g : genkit.Genkit) (searchTool : ai.Tool) (tavilyClient : tavily.Client)
    (model : genkit.Model) :
    ((main.sendRequest a q).Messages
          = a.history ++ [{ Role := ai.Role.RoleUser, Content := [{ Text := q }] }]
      ∧ (main.sendRequest a q).System = a.systemPrompt
      ∧ (main.sendRequest a q).Tools = [a.searchTool]
      ∧ (main.sendRequest a q).Model = a.model
      ∧ (main.sendRequest a q).g = a.g
      ∧ main.Send generate a q
          = (match generate
                { g := a.g
                  Model := a.model
                  System := a.systemPrompt
                  Messages :=
                    a.history ++ [{ Role := ai.Role.RoleUser, Content := [{ Text := q }] }]
                  Tools := [a.searchTool] } with
            | Except.error err =>
                ({ a with
                    history :=
                      a.history ++ [{ Role := ai.Role.RoleUser, Content := [{ Text := q }] }] },
                  ("", some ("generate error: " ++ err)))
            | Except.ok response =>
                ({ a with
                    history :=
                      a.history ++ [{ Role := ai.Role.RoleUser, Content := [{ Text := q }] }]
                        ++ [{ Role := ai.Role.RoleModel,
                              Content := [{ Text := response.Text }] }] },
                  (response.Text, none)))
      ∧ (main.sendRequest (main.perform a ops) q).System = a.systemPrompt
      ∧ (main.sendRequest (main.perform a ops) q).Tools = [a.searchTool]
      ∧ (main.sendRequest (main.perform (main.createChatAgent g searchTool model) ops) q).System
          = main.chatSystemPrompt)
    ∧ ((agent.sendRequest b q).Messages
          = b.history ++ [{ Role := ai.Role.RoleUser, Content := [{ Text := q }] }]
      ∧ (agent.sendRequest b q).System = b.systemPrompt
      ∧ (agent.sendRequest b q).Tools = [b.searchTool]
      ∧ (agent.sendRequest b q).Model = b.model
      ∧ (agent.sendRequest b q).g = b.g
      ∧ agent.Send generate b q
          = (match generate
                { g := b.g
                  Model := b.model
                  System := b.systemPrompt
                  Messages :=
                    b.history ++ [{ Role := ai.Role.RoleUser, Content := [{ Text := q }] }]
                  Tools := [b.searchTool] } with
            | Except.error err =>
                ({ b with
                    history :=
                      b.history ++ [{ Role := ai.Role.RoleUser, Content := [{ Text := q }] }] },
                  ("", some ("generate error: " ++ err)))
            | Except.ok response =>
                ({ b with
                    history :=
                      b.history ++ [{ Role := ai.Role.RoleUser, Content := [{ Text := q }] }]
                        ++ [{ Role := ai.Role.RoleModel,
                              Content := [{ Text := response.Text }] }] },
                  (response.Text, none)))
      ∧ (agent.sendRequest (agent.perform b bops) q).System = b.systemPrompt
      ∧ (agent.sendRequest (agent.perform b bops) q).Tools = [b.searchTool]
      ∧ (agent.sendRequest (agent.perform (agent.CreateChatAgent g tavilyClient model) bops)
            q).System = agent.chatSystemPrompt) := by
  refine ⟨⟨rfl, rfl, rfl, rfl, rfl, main.Send_eq generate a q, ?_, ?_, ?_⟩,
    ⟨rfl, rfl, rfl, rfl, rfl, agent.agent_Send_eq generate b q, ?_, ?_, ?_⟩⟩
  · exact (main.perform_config ops a).2.2.2
  · exact congrArg (fun t => [t]) (main.perform_config ops a).2.2.1
  · exact (main.perform_config ops (main.createChatAgent g searchTool model)).2.2.2
  · exact (agent.agent_perform_config bops b).2.2.2
  · exact congrArg (fun t => [t]) (agent.agent_perform_config bops b).2.2.1
  · exact (agent.agent_perform_config bops (agent.CreateChatAgent g tavilyClient model)).2.2.2

/-! ## The search tool and the search client: claims C5 to C7 -/

theorem string_join_cons (s : String) (ss : List String) :
    String.join (s :: ss) = s ++ String.join ss := by
  apply String.ext
  simp [String.join_eq]

namespace main

theorem formatLoop_eq (results : List tavily.SearchResult) :
    ∀ (i : Nat) (formattedResults : String),
      formatLoop i results formattedResults
        = formattedResults ++ String.join (results.mapIdx fun j r => formatItem (i + j) r) := by
  induction results with
  | nil => intro i acc; simp [formatLoop, String.join]
  | cons r rest ih =>
      intro i acc
      have e : (fun j (r : tavily.SearchResult) => formatItem (i + 1 + j) r)
          = fun j r => formatItem (i + (j + 1)) r := by
        funext j r; rw [Nat.add_assoc, Nat.add_comm 1 j]
      rw [formatLoop, ih, List.mapIdx_cons, string_join_cons, e, String.append_assoc]
      rfl

end main

namespace agent

theorem agent_formatLoop_eq (results : List tavily.SearchResult) :
    ∀ (i : Nat) (formattedResults : String),
      formatLoop i results formattedResults
        = formattedResults ++ String.join (results.mapIdx fun j r => formatItem (i + j) r) := by
  induction results with
  | nil => intro i acc; simp [formatLoop, String.join]
  | cons r rest ih =>
      intro i acc
      have e : (fun j (r : tavily.SearchResult) => formatItem (i + 1 + j) r)
          = fun j r => formatItem (i + (j + 1)) r := by
        funext j r; rw [Nat.add_assoc, Nat.add_comm 1 j]
      rw [formatLoop, ih, List.mapIdx_cons, string_join_cons, e, String.append_assoc]
      rfl

end agent

/-- C5: whenever the search client answers the request of the search
tool without error, the tool returns `(text, nil)` where `text` is the
concatenation, in the order of the result list, of one item per result:
`[k] title`, the line `URL: url`, the line `Content: content` and an
empty line, `k` being the 1-based position of the result; for the empty
result list the text is the empty string, still with a nil error; for
the tool of package `main` and the tool of package `agent`. -/
theorem C5_search_tool_formats_results (tavilyClient : tavily.Client) (input : SearchInput)
    (answer : tavily.SearchAnswer) :
    (tavilyClient (main.searchQuery input) = Except.ok answer →
      main.searchToolFn tavilyClient input
          = (String.join (answer.Results.mapIdx fun i result =>
              "[" ++ toString (i + 1) ++ "] " ++ result.Title ++ "\nURL: " ++ result.URL
                ++ "\nContent: " ++ result.Content ++ "\n\n"), none)
        ∧ (answer.Results = [] → main.searchToolFn tavilyClient input = ("", none)))
    ∧ (tavilyClient (agent.searchQuery input) = Except.ok answer →
      agent.searchToolFn tavilyClient input
          = (String.join (answer.Results.mapIdx fun i result =>
              "[" ++ toString (i + 1) ++ "] " ++ result.Title ++ "\nURL: " ++ result.URL
                ++ "\nContent: " ++ result.Content ++ "\n\n"), none)
        ∧ (answer.Results = [] → agent.searchToolFn tavilyClient input = ("", none))) := by
  constructor
  · intro h
    have e : main.searchToolFn tavilyClient input
        = (main.formatLoop 0 answer.Results "", none) := by
      simp only [main.searchToolFn, h]
    rw [e, main.formatLoop_eq]
    refine ⟨?_, ?_⟩
    · simp [main.formatItem]
    · intro hnil
      rw [hnil]
      rfl
  · intro h
    have e : agent.searchToolFn tavilyClient input
        = (agent.formatLoop 0 answer.Results "", none) := by
      simp only [agent.searchToolFn, h]
    rw [e, agent.agent_formatLoop_eq]
    refine ⟨?_, ?_⟩
    · simp [agent.formatItem]
    · intro hnil
      rw [hnil]
      rfl

/-- C5 on the results `A` and `B`, and on a client that finds nothing. -/
theorem C5_search_tool_formats_results_witness :
    (main.searchToolFn sample.tavilyClient { Query := "lean" }
        = ("[1] A\nURL: urlA\nContent: ctA\n\n[2] B\nURL: urlB\nContent: ctB\n\n", none)
      ∧ agent.searchToolFn sample.tavilyClient { Query := "lean" }
        = ("[1] A\nURL: urlA\nContent: ctA\n\n[2] B\nURL: urlB\nContent: ctB\n\n", none))
    ∧ (main.searchToolFn (fun _ => Except.ok {}) { Query := "lean" } = ("", none)
      ∧ agent.searchToolFn (fun _ => Except.ok {}) { Query := "lean" } = ("", none)) :=
  ⟨⟨((C5_search_tool_formats_results sample.tavilyClient { Query := "lean" }
        { Results := sample.results }).1 rfl).1,
     ((C5_search_tool_formats_results sample.tavilyClient { Query := "lean" }
        { Results := sample.results }).2 rfl).1⟩,
   ⟨((C5_search_tool_formats_results (fun _ => Except.ok {}) { Query := "lean" } {}).1 rfl).2 rfl,
    ((C5_search_tool_formats_results (fun _ => Except.ok {}) { Query := "lean" } {}).2 rfl).2 rfl⟩⟩

/-- C6 (evaluation of both search tools): for every query the tool of
package `main` calls the search client with the query unchanged and the
options depth=advanced, maxResults=5, includeAnswer=basic, no raw
content, no images; the tool of package `agent` calls it with the query
unchanged and maxResults=5 but leaves the depth and the answer option at
their zero values, which are not `advanced` and not `basic`. -/
theorem C6_agent_tool_request_omits_depth_and_answer (tavilyClient : tavily.Client)
    (input : SearchInput) :
    (main.searchToolFn tavilyClient input
        = (match tavilyClient
              { Query := input.Query
                SearchDepth := tavily.SearchQueryDepthAdvanced
                MaxResults := 5
                IncludeAnswer := tavily.SearchQueryIncludeAnswerBasic
                IncludeRawContent := false
                IncludeImages := false } with
          | Except.error err => ("", some ("search error: " ++ err))
          | Except.ok results => (main.formatLoop 0 results.Results "", none)))
    ∧ (agent.searchToolFn tavilyClient input
        = (match tavilyClient
              { Query := input.Query
                SearchDepth := ""
                MaxResults := 5
                IncludeAnswer := ""
                IncludeRawContent := false
                IncludeImages := false } with
          | Except.error err => ("", some ("search error: " ++ err))
          | Except.ok results => (agent.formatLoop 0 results.Results "", none)))
    ∧ (agent.searchQuery input).SearchDepth ≠ tavily.SearchQueryDepthAdvanced
    ∧ (agent.searchQuery input).IncludeAnswer ≠ tavily.SearchQueryIncludeAnswerBasic
    ∧ agent.searchQuery input ≠ main.searchQuery input := by
  refine ⟨rfl, rfl, ?_, ?_, ?_⟩
  · show ("" : String) ≠ "advanced"
    decide
  · show ("" : String) ≠ "basic"
    decide
  · intro h
    have h2 : (agent.searchQuery input).SearchDepth = (main.searchQuery input).SearchDepth := by
      rw [h]
    exact absurd h2 (by show ("" : String) ≠ "advanced"; decide)

/-- C7: for every query and every `maxResults <= 0`, `SearchWeb` sends
the search client exactly the request it sends for `maxResults = 5`
(depth=advanced, includeAnswer=basic, no raw content, no images, 5
results) and returns the same answer or the same error for the same
client; for every `maxResults > 0` the request carries that value
unchanged; in every case `SearchWeb` returns the client's answer for
that request, or the zero answer and the wrapped error. -/
theorem C7_search_web_default_max_results (client : tavily.Client) (query : String)
    (maxResults : Int) :
    (maxResults ≤ 0 →
      agent.SearchWebRequest query maxResults = agent.SearchWebRequest query 5
        ∧ (agent.SearchWebRequest query maxResults).MaxResults = 5
        ∧ agent.SearchWeb client query maxResults = agent.SearchWeb client query 5)
    ∧ (0 < maxResults →
      agent.SearchWebRequest query maxResults
        = { Query := query
            SearchDepth := tavily.SearchQueryDepthAdvanced
            MaxResults := maxResults
            IncludeAnswer := tavily.SearchQueryIncludeAnswerBasic
            IncludeRawContent := false
            IncludeImages := false })
    ∧ agent.SearchWeb client query maxResults
        = (match client (agent.SearchWebRequest query maxResults) with
          | Except.error err => ({}, some ("Tavily search failed: " ++ err))
          | Except.ok response => (response, none))
    ∧ (agent.SearchWebRequest query maxResults).Query = query := by
  refine ⟨?_, ?_, rfl, rfl⟩
  · intro h
    have e : agent.SearchWebRequest query maxResults = agent.SearchWebRequest query 5 := by
      simp [agent.SearchWebRequest, h]
    refine ⟨e, ?_, ?_⟩
    · rw [e]; rfl
    · simp only [agent.SearchWeb, e]
  · intro h
    have hn : ¬ maxResults ≤ 0 := by omega
    simp [agent.SearchWebRequest, agent.webSearchQuery, hn]

/-- C7 at `maxResults` 0, -3 and 7. -/
theorem C7_search_web_default_max_results_witness :
    (agent.SearchWeb sample.tavilyClient "lean" 0 = agent.SearchWeb sample.tavilyClient "lean" 5
      ∧ agent.SearchWeb sample.tavilyDown "lean" (-3) = agent.SearchWeb sample.tavilyDown "lean" 5
      ∧ (agent.SearchWebRequest "lean" (-3)).MaxResults = 5)
    ∧ agent.SearchWebRequest "lean" 7
        = { Query := "lean"
            SearchDepth := tavily.SearchQueryDepthAdvanced
            MaxResults := 7
            IncludeAnswer := tavily.SearchQueryIncludeAnswerBasic
            IncludeRawContent := false
            IncludeImages := false } :=
  ⟨⟨((C7_search_web_default_max_results sample.tavilyClient "lean" 0).1 (by decide)).2.2,
    ((C7_search_web_default_max_results sample.tavilyDown "lean" (-3)).1 (by decide)).2.2,
    ((C7_search_web_default_max_results sample.tavilyDown "lean" (-3)).1 (by decide)).2.1⟩,
   (C7_search_web_default_max_results sample.tavilyClient "lean" 7).2.1 (by decide)⟩

/-! ## The interactive shell: claims C8 and C9 -/

namespace main

theorem loop_exit (generate : Nat → genkit.Generate) (sh : Shell) (line : String)
    (rest : List (Except String String))
    (h : strings.TrimSpace line = "exit" ∨ strings.TrimSpace line = "quit") :
    loop generate (Except.ok line :: rest) sh
      = { sh with out := sh.out ++ [Output.farewell] } := by
  simp only [loop, h, if_true]

theorem loop_empty (generate : Nat → genkit.Generate) (sh : Shell) (line : String)
    (rest : List (Except String String)) (h : strings.TrimSpace line = "") :
    loop generate (Except.ok line :: rest) sh
      = loop generate rest { sh with out := sh.out ++ [Output.usageHint] } := by
  simp only [loop, h]
  exact if_neg (by decide)

theorem loop_clear (generate : Nat → genkit.Generate) (sh : Shell) (line : String)
    (rest : List (Except String String)) (h : strings.TrimSpace line = "clear") :
    loop generate (Except.ok line :: rest) sh
      = loop generate rest
          { sh with
            chatAgent := ClearHistory sh.chatAgent
            calls := sh.calls ++ [AgentCall.ClearHistory]
            out := sh.out ++ [Output.historyCleared] } := by
  simp only [loop, h]
  rw [if_neg (by decide), if_neg (by decide), if_pos trivial]

theorem loop_send (generate : Nat → genkit.Generate) (sh : Shell) (line : String)
    (rest : List (Except String String))
    (h0 : strings.TrimSpace line ≠ "") (h1 : strings.TrimSpace line ≠ "exit")
    (h2 : strings.TrimSpace line ≠ "quit") (h3 : strings.TrimSpace line ≠ "clear") :
    loop generate (Except.ok line :: rest) sh
      = loop generate rest
          { chatAgent := (Send (generate sh.generated) sh.chatAgent (strings.TrimSpace line)).1
            calls := sh.calls ++ [AgentCall.Send (strings.TrimSpace line)]
            out := sh.out ++ [Output.spinnerStart, Output.spinnerStop,
              match (Send (generate sh.generated) sh.chatAgent (strings.TrimSpace line)).2.2 with
              | some err => Output.error err
              | none => Output.answer
                  (Send (generate sh.generated) sh.chatAgent (strings.TrimSpace line)).2.1]
            generated := sh.generated + 1 } := by
  have h4 : ¬ (strings.TrimSpace line = "exit" ∨ strings.TrimSpace line = "quit") := by
    rintro (h | h)
    · exact h1 h
    · exact h2 h
  simp only [loop, h4, if_false, h0, h3]
  cases (Send (generate sh.generated) sh.chatAgent (strings.TrimSpace line)).2.2 <;> simp

end main

/-- C8: for every line the shell reads, in every shell state: if the
trimmed line is empty, the loop goes on with the remaining input after
printing the usage hint only, the agent, the recorded agent calls and
the count of generation calls being unchanged; if it is `clear`, the
loop goes on after one `ClearHistory` call on the agent and no `Send`;
if it is `exit` or `quit`, the loop ends there, whatever input remains,
after printing the farewell only; a read error and the end of input end
the loop with the state unchanged. -/
theorem C8_shell_control_lines (generate : Nat → genkit.Generate) (sh : main.Shell)
    (line err : String) (rest : List (Except String String)) :
    (strings.TrimSpace line = "" →
      main.loop generate (Except.ok line :: rest) sh
        = main.loop generate rest { sh with out := sh.out ++ [main.Output.usageHint] })
    ∧ (strings.TrimSpace line = "clear" →
      main.loop generate (Except.ok line :: rest) sh
        = main.loop generate rest
            { sh with
              chatAgent := main.ClearHistory sh.chatAgent
              calls := sh.calls ++ [main.AgentCall.ClearHistory]
              out := sh.out ++ [main.Output.historyCleared] })
    ∧ (strings.TrimSpace line = "exit" ∨ strings.TrimSpace line = "quit" →
      main.loop generate (Except.ok line :: rest) sh
        = { sh with out := sh.out ++ [main.Output.farewell] })
    ∧ main.loop generate (Except.error err :: rest) sh = sh
    ∧ main.loop generate [] sh = sh :=
  ⟨main.loop_empty generate sh line rest, main.loop_clear generate sh line rest,
    main.loop_exit generate sh line rest, rfl, rfl⟩

/-- C8 on a blank line, on `clear`, on `exit` and on `quit`, each
followed by a question that is still to be read. -/
theorem C8_shell_control_lines_witness :
    main.loop sample.generate [Except.ok "  \t", Except.ok "what is lean?"] sample.shell
        = main.loop sample.generate [Except.ok "what is lean?"]
            { sample.shell with out := sample.shell.out ++ [main.Output.usageHint] }
    ∧ main.loop sample.generate [Except.ok " clear ", Except.ok "what is lean?"] sample.shellLater
        = main.loop sample.generate [Except.ok "what is lean?"]
            { sample.shellLater with
              chatAgent := main.ClearHistory sample.shellLater.chatAgent
              calls := sample.shellLater.calls ++ [main.AgentCall.ClearHistory]
              out := sample.shellLater.out ++ [main.Output.historyCleared] }
    ∧ main.loop sample.generate [Except.ok "exit", Except.ok "what is lean?"] sample.shell
        = { sample.shell with out := sample.shell.out ++ [main.Output.farewell] }
    ∧ main.loop sample.generate [Except.ok " quit\n", Except.ok "what is lean?"] sample.shell
        = { sample.shell with out := sample.shell.out ++ [main.Output.farewell] } :=
  ⟨(C8_shell_control_lines sample.generate sample.shell "  \t" ""
      [Except.ok "what is lean?"]).1 (by decide),
   (C8_shell_control_lines sample.generate sample.shellLater " clear " ""
      [Except.ok "what is lean?"]).2.1 (by decide),
   (C8_shell_control_lines sample.generate sample.shell "exit" ""
      [Except.ok "what is lean?"]).2.2.1 (Or.inl (by decide)),
   (C8_shell_control_lines sample.generate sample.shell " quit\n" ""
      [Except.ok "what is lean?"]).2.2.1 (Or.inr (by decide))⟩

/-- C9: for every line whose trimmed value is not empty and is none of
`exit`, `quit`, `clear`, in every shell state, the shell calls `Send`
exactly once, with the trimmed line, on the next generation call of the
backend, prints the answer or the error that `Send` returned, and goes
on with the remaining input in both cases, with the agent as `Send` left
it. -/
theorem C9_shell_forwards_other_lines (generate : Nat → genkit.Generate) (sh : main.Shell)
    (line : String) (rest : List (Except String String))
    (h0 : strings.TrimSpace line ≠ "") (h1 : strings.TrimSpace line ≠ "exit")
    (h2 : strings.TrimSpace line ≠ "quit") (h3 : strings.TrimSpace line ≠ "clear") :
    main.loop generate (Except.ok line :: rest) sh
      = main.loop generate rest
          { chatAgent :=
              (main.Send (generate sh.generated) sh.chatAgent (strings.TrimSpace line)).1
            calls := sh.calls ++ [main.AgentCall.Send (strings.TrimSpace line)]
            out := sh.out ++ [main.Output.spinnerStart, main.Output.spinnerStop,
              match (main.Send (generate sh.generated) sh.chatAgent
                  (strings.TrimSpace line)).2.2 with
              | some err => main.Output.error err
              | none => main.Output.answer
                  (main.Send (generate sh.generated) sh.chatAgent (strings.TrimSpace line)).2.1]
            generated := sh.generated + 1 } :=
  main.loop_send generate sh line rest h0 h1 h2 h3

/-- C9 on the lines ` Exit ` and `CLEAR`, read by a shell whose next
generation call fails: both are sent to the agent, the failure is
printed, and the loop goes on to the second line. -/
theorem C9_shell_forwards_other_lines_witness :
    (main.loop sample.flaky [Except.ok " Exit ", Except.ok "CLEAR"] sample.shellLater).calls
        = [main.AgentCall.Send "hello", main.AgentCall.Send "Exit", main.AgentCall.Send "CLEAR"]
    ∧ (main.loop sample.flaky [Except.ok " Exit ", Except.ok "CLEAR"] sample.shellLater).out
        = [main.Output.welcome,
           main.Output.spinnerStart, main.Output.spinnerStop,
           main.Output.error "generate error: quota",
           main.Output.spinnerStart, main.Output.spinnerStop,
           main.Output.answer "fine"]
    ∧ (main.loop sample.flaky [Except.ok " Exit ", Except.ok "CLEAR"]
          sample.shellLater).chatAgent.history
        = [main.userMessage "Exit", main.userMessage "CLEAR", main.modelMessage "fine"] := by
  rw [C9_shell_forwards_other_lines sample.flaky sample.shellLater " Exit "
    [Except.ok "CLEAR"] (by decide) (by decide) (by decide) (by decide)]
  rw [C9_shell_forwards_other_lines sample.flaky _ "CLEAR" [] (by decide) (by decide)
    (by decide) (by decide)]
  exact ⟨rfl, rfl, rfl⟩

/-! ## Startup: claim C10 -/

namespace main

theorem main_no_gemini (w : World) (h : w.Getenv "GEMINI_API_KEY" = "") :
    (main w).outcome = Outcome.exit 1 ∧ (main w).steps = [] := by
  unfold main
  split
  · exact ⟨rfl, rfl⟩
  · simp [h]

theorem main_load_fails (w : World) (h : w.envLoad ≠ none) :
    (main w).outcome = Outcome.exit 1 ∧ (main w).steps = [] := by
  unfold main
  split
  · exact ⟨rfl, rfl⟩
  · rename_i hn
    exact absurd hn h

theorem main_nil_tool_panics (w : World) (hl : w.envLoad = none)
    (hg : w.Getenv "GEMINI_API_KEY" ≠ "") (ht : w.Getenv "TAVILY_API_KEY" = "") :
    (main w).outcome = Outcome.panic
      ∧ (main w).steps = [Step.genkitInit, Step.googleAIModel] := by
  unfold main
  simp [hl, hg, ht]

theorem main_steps_started (w : World) (h : Step.startInteractive ∈ (main w).steps) :
    w.Getenv "GEMINI_API_KEY" ≠ "" ∧ w.Getenv "TAVILY_API_KEY" ≠ "" := by
  by_cases hl : w.envLoad = none
  · by_cases hg : w.Getenv "GEMINI_API_KEY" = ""
    · rw [(main_no_gemini w hg).2] at h
      simp at h
    · by_cases ht : w.Getenv "TAVILY_API_KEY" = ""
      · rw [(main_nil_tool_panics w hl hg ht).2] at h
        simp at h
      · exact ⟨hg, ht⟩
  · rw [(main_load_fails w hl).2] at h
    simp at h

end main

/-- C10 (evaluation of `main` where the search tool is nil): with the
`.env` file loaded, `GEMINI_API_KEY` set and `TAVILY_API_KEY` empty, the
process does not reach the guard that exits with status 1: it panics,
status 2, in `genkit.DefinePrompt`, after the genkit handle and the
model were built, in default mode and in serve mode alike; the same
happens with both keys set when `tavily.NewClient` fails. -/
theorem C10_nil_tool_panics_before_guard :
    (sample.world.envLoad = none
      ∧ sample.world.Getenv "GEMINI_API_KEY" = "gemini-key"
      ∧ sample.world.Getenv "TAVILY_API_KEY" = ""
      ∧ sample.world.Args = ["cli-interactive"]
      ∧ (main.main sample.world).outcome = main.Outcome.panic
      ∧ (main.main sample.world).outcome.status = some 2
      ∧ (main.main sample.world).steps = [main.Step.genkitInit, main.Step.googleAIModel])
    ∧ (sample.worldServe.Args = ["cli-interactive", "serve"]
      ∧ sample.worldServe.Getenv "TAVILY_API_KEY" = ""
      ∧ (main.main sample.worldServe).outcome = main.Outcome.panic
      ∧ (main.main sample.worldServe).outcome.status = some 2
      ∧ (main.main sample.worldServe).steps = [main.Step.genkitInit, main.Step.googleAIModel])
    ∧ (sample.worldClientFails.Getenv "TAVILY_API_KEY" = "tavily-key"
      ∧ (main.main sample.worldClientFails).outcome = main.Outcome.panic
      ∧ (main.main sample.worldClientFails).steps
        = [main.Step.genkitInit, main.Step.tavilyNewClient, main.Step.googleAIModel]) :=
  ⟨⟨rfl, rfl, rfl, rfl, rfl, rfl, rfl⟩, ⟨rfl, rfl, rfl, rfl, rfl⟩, ⟨rfl, rfl, rfl⟩⟩
